import Mathlib

/-!
Formal model of the Mayhem LLM SDK orchestration layer: the LLM connector
(provider dispatch and trading-response parsing), the trading agent loop
(start/stop state machine, per-tick decision execution and buyback check),
the marketing agent loop, and the blockchain facade methods the loops call
(trade, buybackAndBurn, collectFees).

JavaScript values that flow through untyped positions are modelled by the
`Json` type below; a missing property (JavaScript `undefined`) is modelled
by `Option.none`. External effects (HTTP fetches, RPC sends, JSON.parse of
an arbitrary reply) are modelled by explicit environment arguments carrying
the outcome the external world returns; a thrown JavaScript error is an
`Except.error` carrying the message.
-/

namespace MayhemLLM

/-- JSON values, as produced by a successful JavaScript JSON.parse call. -/
inductive Json where
  | null
  | bool (b : Bool)
  | num (q : ℚ)
  | str (s : String)
  | arr (elems : List Json)
  | obj (fields : List (String × Json))

/-- Property access `v[key]` on a JavaScript value: a lookup on an object,
`undefined` (modelled as `none`) on every non-object. Access on `null`
throws in JavaScript and is handled separately at its one use site. -/
def Json.getField : Json → String → Option Json
  | .obj fields, key => (fields.find? (fun f => f.1 == key)).map (fun f => f.2)
  | _, _ => none

/-- Whether a parsed value is the JSON literal `null`. -/
def Json.isNull : Json → Bool
  | .null => true
  | _ => false

/-- JavaScript truthiness of a possibly-undefined value, as used by
`if (decision.amount)` and similar guards. -/
def jsTruthy : Option Json → Bool
  | none => false
  | some .null => false
  | some (.bool b) => b
  | some (.num q) => decide (q ≠ 0)
  | some (.str s) => decide (s ≠ "")
  | some (.arr _) => true
  | some (.obj _) => true

/-- JavaScript numeric comparison `v > threshold` for a possibly-undefined
value in a position typed `number`: true exactly when the value is a number
strictly above the threshold (comparison against `undefined` is false). -/
def jsGtNum (v : Option Json) (threshold : ℚ) : Bool :=
  match v with
  | some (.num q) => decide (q > threshold)
  | _ => false

/-- JavaScript strict equality `v === lit` against a string literal, as used
by the `switch (decision.action)` dispatch. -/
def jsStrEq (v : Option Json) (lit : String) : Bool :=
  match v with
  | some (.str t) => t == lit
  | _ => false

/-- The runtime shape of the decision record built by
`LLMConnector.parseTradingResponse`. The TypeScript interface declares
`action/amount/reasoning/confidence`, but the parser copies whatever the
parsed JSON held, so each field is an arbitrary JavaScript value and may be
`undefined` (`none`). -/
structure LLMResponse where
  action : Option Json
  amount : Option Json
  reasoning : Option Json
  confidence : Option Json

/-- The fallback record built in the catch branch of
`parseTradingResponse`: action `hold`, confidence `0.5`, `reasoning` set to
the raw reply text, `amount` left undefined. -/
def holdFallback (response : String) : LLMResponse :=
  { action := some (.str "hold"), amount := none,
    reasoning := some (.str response), confidence := some (.num (1 / 2)) }

/-- Model of `LLMConnector.parseTradingResponse` (llm-connector.ts lines
270 to 287). The first argument is the outcome of `JSON.parse(response)`:
`none` when the parse throws (invalid JSON). On a successful parse the
function copies the four properties off the parsed value; a parsed `null`
makes the property access itself throw, which the same catch turns into the
fallback. The Lean function is total: no error ever escapes to the caller. -/
def parseTradingResponse (parseResult : Option Json) (response : String) : LLMResponse :=
  match parseResult with
  | some parsed =>
    if parsed.isNull then
      holdFallback response
    else
      { action := parsed.getField "action", amount := parsed.getField "amount",
        reasoning := parsed.getField "reasoning", confidence := parsed.getField "confidence" }
  | none => holdFallback response

/-- Provider tag of the connector configuration. The TypeScript union has
five literal members; `other` models any runtime string outside the union,
reachable because the configuration is never validated at construction. -/
inductive Provider where
  | openrouter
  | eliza
  | openai
  | anthropic
  | custom
  | other (name : String)

/-- Configuration record accepted by the `LLMConnector` constructor. -/
structure LLMConfig where
  provider : Provider
  apiKey : Option String
  model : Option String
  baseUrl : Option String
  systemPrompt : Option String

/-- Chat message record kept in the conversation history. -/
structure Message where
  role : String
  content : String

/-- Connector state after construction: the stored configuration and the
history seeded with the system prompt. -/
structure ConnectorState where
  config : LLMConfig
  conversationHistory : List Message

/-- JavaScript `a || b` on an optional string: the default is used when the
value is undefined or the empty string. -/
def jsOrElse (v : Option String) (d : String) : String :=
  match v with
  | some s => if s = "" then d else s
  | none => d

/-- String interpolation of a possibly-undefined value, which JavaScript
renders as the literal text `undefined`. -/
def jsStringify (v : Option String) : String :=
  match v with
  | some s => s
  | none => "undefined"

/-- Model of the `LLMConnector` constructor (llm-connector.ts lines 29 to
35): it stores the configuration without validating the provider and pushes
one system message. Construction always succeeds. -/
def LLMConnector.construct (config : LLMConfig) (defaultSystemPrompt : String) : ConnectorState :=
  { config := config,
    conversationHistory :=
      [{ role := "system", content := jsOrElse config.systemPrompt defaultSystemPrompt }] }

/-- Description of the single outbound HTTP request a provider branch of
`queryLLM` would issue. -/
structure HttpRequest where
  url : String

/-- Rendering of a provider tag by string interpolation, used in the error
message of the default switch branch. -/
def Provider.displayName : Provider → String
  | .openrouter => "openrouter"
  | .eliza => "eliza"
  | .openai => "openai"
  | .anthropic => "anthropic"
  | .custom => "custom"
  | .other name => name

/-- Model of `LLMConnector.queryLLM` (llm-connector.ts lines 90 to 114):
the five recognized providers each issue exactly one fetch to their
endpoint; any other provider value hits the default branch and throws
before any network request is built. -/
def queryLLM (cfg : LLMConfig) : Except String HttpRequest :=
  match cfg.provider with
  | .openrouter => .ok { url := "https://openrouter.ai/api/v1/chat/completions" }
  | .eliza => .ok { url := jsStringify cfg.baseUrl ++ "/api/chat" }
  | .openai => .ok { url := "https://api.openai.com/v1/chat/completions" }
  | .anthropic => .ok { url := "https://api.anthropic.com/v1/messages" }
  | .custom => .ok { url := jsStringify cfg.baseUrl }
  | .other name => .error ("Unsupported provider: " ++ Provider.displayName (.other name))

/-- Trading configuration passed to `startTrading` (trading-agent source,
interface TradingConfig). -/
structure TradingConfig where
  tokenMint : String
  strategy : String
  maxRisk : ℚ
  stopLoss : Option ℚ
  takeProfit : Option ℚ

/-- Buyback configuration passed to `enableBuybackBurn` (trading-agent
source, interface BuybackConfig). -/
structure BuybackConfig where
  enabled : Bool
  triggerPrice : Option ℚ
  burnPercentage : ℚ
  lpPercentage : Option ℚ

/-- Mutable fields of a `TradingAgent` instance. The timer handle returned
by setInterval is modelled by an identifier; `none` means no timer is
installed. -/
structure AgentState where
  isRunning : Bool
  config : Option TradingConfig
  buybackConfig : Option BuybackConfig
  checkInterval : Option Nat

/-- Field values of a freshly constructed `TradingAgent`. -/
def AgentState.initial : AgentState :=
  { isRunning := false, config := none, buybackConfig := none, checkInterval := none }

/-- Model of `TradingAgent.startTrading` (lines 40 to 58): a second start
while running throws before touching any field or creating a timer;
otherwise the configuration is stored, the running flag set, and one new
timer installed. -/
def startTrading (s : AgentState) (config : TradingConfig) (timerId : Nat) :
    Except String AgentState :=
  if s.isRunning then
    .error "Agent already running"
  else
    .ok { s with config := some config, isRunning := true, checkInterval := some timerId }

/-- Model of `TradingAgent.stopTrading` (lines 63 to 70): clears the timer
handle if present and resets the running flag. -/
def stopTrading (s : AgentState) : AgentState :=
  { s with checkInterval := none, isRunning := false }

/-- Model of `TradingAgent.enableBuybackBurn` (lines 75 to 78). -/
def enableBuybackBurn (s : AgentState) (config : BuybackConfig) : AgentState :=
  { s with buybackConfig := some config }

/-- Token information returned by `MayhemSDK.getTokenInfo`. -/
structure TokenInfo where
  mint : String
  name : String
  symbol : String
  decimals : ℚ
  supply : ℚ

/-- Market snapshot assembled each tick by `TradingAgent.getMarketData`. -/
structure MarketData where
  symbol : String
  price : ℚ
  volume24h : ℚ
  priceChange24h : ℚ
  marketCap : ℚ
  holders : ℚ
  recentTxs : List Json

/-- Model of `TradingAgent.getMarketData` (lines 115 to 130) applied to the
values the three facade calls returned: price change, holder count and
recent transactions are hardcoded placeholders. -/
def getMarketData (tokenInfo : TokenInfo) (price : ℚ) (volume24h : ℚ) : MarketData :=
  { symbol := tokenInfo.symbol, price := price, volume24h := volume24h,
    priceChange24h := 0, marketCap := price * tokenInfo.supply,
    holders := 0, recentTxs := [] }

/-- SDK calls a trading tick can issue, at the granularity seen by the
agent (the facade methods it invokes with their arguments). -/
inductive SdkCall where
  | trade (tokenMint : String) (amount : Option Json) (side : String) (slippage : Option ℚ)
  | addLiquidityFromFees (tokenMint : String) (amount : Option Json)
  | collectFees
  | buybackAndBurn (tokenMint : String) (solAmount : ℚ) (burnPercentage : ℚ)

/-- Whether a call is one of the `executeDecision` dispatch targets (a
trade from the buy or sell arm, or the add-liquidity call; the burn arm of
the switch performs no SDK call because it is commented out). -/
def SdkCall.isDispatchCall : SdkCall → Bool
  | .trade _ _ _ _ => true
  | .addLiquidityFromFees _ _ => true
  | _ => false

/-- Whether a call is the composite buyback execution. -/
def SdkCall.isBuybackAndBurn : SdkCall → Bool
  | .buybackAndBurn _ _ _ => true
  | _ => false

/-- Model of `TradingAgent.executeDecision` (lines 135 to 169): a switch on
`decision.action` by strict string equality; the buy, sell and add_lp arms
each guard on the truthiness of `decision.amount` before issuing one SDK
call; the burn arm only logs (its SDK call is commented out in the source);
hold and every unrecognized action fall through with no call and no error. -/
def executeDecision (config : Option TradingConfig) (decision : LLMResponse) : List SdkCall :=
  match config with
  | none => []
  | some cfg =>
    if jsStrEq decision.action "buy" then
      if jsTruthy decision.amount then
        [.trade cfg.tokenMint decision.amount "buy" (some (1 / 100))]
      else []
    else if jsStrEq decision.action "sell" then
      if jsTruthy decision.amount then
        [.trade cfg.tokenMint decision.amount "sell" (some (1 / 100))]
      else []
    else if jsStrEq decision.action "burn" then
      []
    else if jsStrEq decision.action "add_lp" then
      if jsTruthy decision.amount then
        [.addLiquidityFromFees cfg.tokenMint decision.amount]
      else []
    else
      []

/-- Model of `TradingAgent.checkBuyback` (lines 212 to 234). The guard
`triggerPrice && price < triggerPrice` is falsy when the trigger is unset
or zero. When it holds, fees are collected; only a strictly positive
returned fee amount leads to the buyback execution. The two `Except`
arguments carry the outcomes of the two awaited facade calls; an error
propagates to the caller of checkBuyback (this method has no catch). -/
def checkBuyback (buybackConfig : Option BuybackConfig) (config : Option TradingConfig)
    (price : ℚ) (feeResult : Except String ℚ) (buybackOutcome : Except String Unit) :
    List SdkCall × Option String :=
  match buybackConfig, config with
  | some bb, some cfg =>
    let shouldBuyback :=
      match bb.triggerPrice with
      | some t => decide (t ≠ 0) && decide (price < t)
      | none => false
    if shouldBuyback then
      match feeResult with
      | .error e => ([.collectFees], some e)
      | .ok feeAmount =>
        if feeAmount > 0 then
          match buybackOutcome with
          | .error e =>
            ([.collectFees, .buybackAndBurn cfg.tokenMint feeAmount bb.burnPercentage], some e)
          | .ok _ =>
            ([.collectFees, .buybackAndBurn cfg.tokenMint feeAmount bb.burnPercentage], none)
        else ([.collectFees], none)
    else ([], none)
  | _, _ => ([], none)

/-- Outcomes the external world returns to one trading tick: the three
snapshot reads, the LLM decision, and the results of the execution and
buyback calls the tick may issue. An `Except.error` models the awaited
call throwing. -/
structure TickEnv where
  tokenInfoResult : Except String TokenInfo
  priceResult : Except String ℚ
  volumeResult : Except String ℚ
  decisionResult : Except String LLMResponse
  execOutcome : Except String Unit
  feeResult : Except String ℚ
  buybackOutcome : Except String Unit

/-- What one tick did: the SDK calls it issued and the error its catch
block logged, if any. The type is total; no error escapes the tick. -/
structure TickOutcome where
  calls : List SdkCall
  caughtError : Option String

/-- Model of `TradingAgent.analyzeAndTrade` (lines 83 to 110): return
immediately when unconfigured; otherwise run snapshot, decision, threshold
gate, dispatch and buyback check in order inside one try block whose catch
only logs. The execution outcome is consulted only when the dispatch
issued at least one call. -/
def analyzeAndTrade (config : Option TradingConfig) (buybackConfig : Option BuybackConfig)
    (env : TickEnv) : TickOutcome :=
  match config with
  | none => { calls := [], caughtError := none }
  | some cfg =>
    match env.tokenInfoResult with
    | .error e => { calls := [], caughtError := some e }
    | .ok tokenInfo =>
      match env.priceResult with
      | .error e => { calls := [], caughtError := some e }
      | .ok price =>
        match env.volumeResult with
        | .error e => { calls := [], caughtError := some e }
        | .ok volume24h =>
          let marketData := getMarketData tokenInfo price volume24h
          match env.decisionResult with
          | .error e => { calls := [], caughtError := some e }
          | .ok decision =>
            let execCalls :=
              if jsGtNum decision.confidence (7 / 10) then
                executeDecision (some cfg) decision
              else []
            match (if execCalls.isEmpty then Except.ok () else env.execOutcome) with
            | .error e => { calls := execCalls, caughtError := some e }
            | .ok _ =>
              if (match buybackConfig with | some bb => bb.enabled | none => false) then
                match checkBuyback buybackConfig (some cfg) marketData.price
                    env.feeResult env.buybackOutcome with
                | (bcalls, err) => { calls := execCalls ++ bcalls, caughtError := err }
              else
                { calls := execCalls, caughtError := none }

/-- One firing of the interval timer installed by `startTrading`: the tick
handler reads the agent fields but assigns none of them, so the state after
the tick is the state before it, whatever the external outcomes were. -/
def driverTick (s : AgentState) (env : TickEnv) : AgentState × TickOutcome :=
  (s, analyzeAndTrade s.config s.buybackConfig env)

/-- Marketing configuration passed to `startMarketing` (marketing-agent
source, interface MarketingConfig). -/
structure MarketingConfig where
  totalBudget : ℚ
  platforms : List String
  minROI : ℚ
  rebalanceInterval : ℚ

/-- Mutable fields of a `MarketingAgent` instance. -/
structure MarketingAgentState where
  isRunning : Bool
  config : Option MarketingConfig
  monitorInterval : Option Nat

/-- Model of `MarketingAgent.startMarketing`: same double-start guard and
timer installation as the trading driver. -/
def startMarketing (s : MarketingAgentState) (config : MarketingConfig) (timerId : Nat) :
    Except String MarketingAgentState :=
  if s.isRunning then
    .error "Marketing agent already running"
  else
    .ok { s with config := some config, isRunning := true, monitorInterval := some timerId }

/-- Model of `MarketingAgent.stopMarketing`. -/
def stopMarketing (s : MarketingAgentState) : MarketingAgentState :=
  { s with monitorInterval := none, isRunning := false }

/-- Allocation decision returned by `LLMConnector.decideMarketing`: the
parsed allocation entries (arbitrary JSON values, unvalidated) and the
reasoning text. -/
structure MarketingDecision where
  allocations : List Json
  reasoning : Option Json

/-- HTTP calls a marketing tick can issue after its metrics fetch: one
allocation POST per entry and one tracking POST. -/
inductive MarketingCall where
  | allocatePost (allocation : Json)
  | trackPost

/-- The sequential for loop over `decision.allocations`: each entry issues
one POST; the first failing POST throws out of the loop, so later entries
are never sent. -/
def runAllocations (allocOutcome : Json → Except String Unit) :
    List Json → List MarketingCall × Option String
  | [] => ([], none)
  | a :: rest =>
    match allocOutcome a with
    | .error e => ([.allocatePost a], some e)
    | .ok _ =>
      match runAllocations allocOutcome rest with
      | (calls, err) => (.allocatePost a :: calls, err)

/-- Outcomes the external world returns to one marketing tick. -/
structure MarketingTickEnv where
  metricsResult : Except String Unit
  decisionResult : Except String MarketingDecision
  allocOutcome : Json → Except String Unit
  trackOutcome : Except String Unit

/-- What one marketing tick did. The type is total; no error escapes. -/
structure MarketingTickOutcome where
  calls : List MarketingCall
  caughtError : Option String

/-- Model of `MarketingAgent.analyzeAndAllocate`: return immediately when
unconfigured; otherwise fetch metrics, request the allocation decision,
POST each allocation, then POST the tracking record, all inside one try
block whose catch only logs. -/
def analyzeAndAllocate (config : Option MarketingConfig) (env : MarketingTickEnv) :
    MarketingTickOutcome :=
  match config with
  | none => { calls := [], caughtError := none }
  | some _ =>
    match env.metricsResult with
    | .error e => { calls := [], caughtError := some e }
    | .ok _ =>
      match env.decisionResult with
      | .error e => { calls := [], caughtError := some e }
      | .ok decision =>
        match runAllocations env.allocOutcome decision.allocations with
        | (calls, some e) => { calls := calls, caughtError := some e }
        | (calls, none) =>
          match env.trackOutcome with
          | .error e => { calls := calls, caughtError := some e }
          | .ok _ => { calls := calls ++ [.trackPost], caughtError := none }

/-- One firing of the marketing interval timer: the tick handler assigns
no field of the agent. -/
def marketingDriverTick (s : MarketingAgentState) (env : MarketingTickEnv) :
    MarketingAgentState × MarketingTickOutcome :=
  (s, analyzeAndAllocate s.config env)

/-- Fields of a `MayhemSDK` instance that its facade methods branch on:
whether a wallet keypair and a controller program id were configured. The
always-present connection and mayhem program id are not modelled. -/
structure SdkState where
  wallet : Option String
  controllerProgram : Option String

/-- Trade parameters accepted by `MayhemSDK.trade` (mayhem-sdk source,
interface TradeParams). -/
structure TradeParams where
  tokenMint : String
  amount : ℚ
  side : String
  slippage : Option ℚ

/-- Buyback parameters accepted by `MayhemSDK.buybackAndBurn`. -/
structure BuybackParams where
  tokenMint : String
  solAmount : ℚ
  burnPercentage : ℚ

/-- On-chain actions and log lines the facade methods produce. The
`burnInstructionIssued` constructor exists so that its absence from every
trace is a statement about the code: buybackAndBurn only ever logs the
burn intention. -/
inductive ChainEvent where
  | tradeSubmitted (tokenMint : String) (amount : ℚ) (side : String) (slippage : Option ℚ)
  | burnIntentLogged (burnPercentage : ℚ)
  | burnInstructionIssued

/-- Whether an event is a submitted trade. -/
def ChainEvent.isTradeSubmitted : ChainEvent → Bool
  | .tradeSubmitted _ _ _ _ => true
  | _ => false

/-- Model of `MayhemSDK.trade` (lines 208 to 231): requires a wallet, then
submits one transaction; `sendResult` is the signature the RPC send
returned, or the error it threw. -/
def MayhemSDK.trade (s : SdkState) (params : TradeParams)
    (sendResult : Except String String) : Except String (String × List ChainEvent) :=
  match s.wallet with
  | none => .error "Wallet not initialized"
  | some _ =>
    match sendResult with
    | .error e => .error e
    | .ok signature =>
      .ok (signature,
        [.tradeSubmitted params.tokenMint params.amount params.side params.slippage])

/-- Model of `MayhemSDK.buybackAndBurn` (lines 236 to 261): after the
wallet and controller checks, submit one buy trade for the full SOL
amount via `MayhemSDK.trade` (no slippage argument), then, when the burn
percentage is positive, log the burn intention; no burn instruction is
built. The returned signature is the signature of the buy trade. -/
def MayhemSDK.buybackAndBurn (s : SdkState) (params : BuybackParams)
    (sendResult : Except String String) : Except String (String × List ChainEvent) :=
  match s.wallet with
  | none => .error "Wallet not initialized"
  | some _ =>
    match s.controllerProgram with
    | none => .error "Controller program not configured"
    | some _ =>
      match MayhemSDK.trade s
          { tokenMint := params.tokenMint, amount := params.solAmount,
            side := "buy", slippage := none } sendResult with
      | .error e => .error e
      | .ok (buySignature, events) =>
        if params.burnPercentage > 0 then
          .ok (buySignature, events ++ [.burnIntentLogged params.burnPercentage])
        else
          .ok (buySignature, events)

/-- Model of `MayhemSDK.collectFees` (lines 288 to 307): requires the
controller program, submits one transaction, and returns the hardcoded
amount 0 (the TODO comment in the source marks the parsed amount as
unimplemented). -/
def MayhemSDK.collectFees (s : SdkState) (sendResult : Except String String) :
    Except String ℚ :=
  match s.controllerProgram with
  | none => .error "Controller program not configured"
  | some _ =>
    match sendResult with
    | .error e => .error e
    | .ok _ => .ok 0

/-- Sample trading configuration, mirroring the basic trading bot example. -/
def sampleTradingConfig : TradingConfig :=
  { tokenMint := "TokenMintAddress", strategy := "dca", maxRisk := 1 / 50,
    stopLoss := some 20, takeProfit := some 50 }

/-- Sample token information record. -/
def sampleTokenInfo : TokenInfo :=
  { mint := "TokenMintAddress", name := "Token Name", symbol := "TKN",
    decimals := 9, supply := 1000000 }

/-- Sample buyback configuration with the trigger price 0.0001 used in the
spec scenarios. -/
def sampleBuybackConfig : BuybackConfig :=
  { enabled := true, triggerPrice := some (1 / 10000), burnPercentage := 50,
    lpPercentage := some 50 }

/-- Decision with action buy, a truthy amount, and confidence 0.65. -/
def lowConfidenceDecision : LLMResponse :=
  { action := some (.str "buy"), amount := some (.num 1),
    reasoning := some (.str "momentum"), confidence := some (.num (13 / 20)) }

/-- Decision with action sell, a truthy amount, and confidence 0.9. -/
def confidentSellDecision : LLMResponse :=
  { action := some (.str "sell"), amount := some (.num 2),
    reasoning := some (.str "momentum"), confidence := some (.num (9 / 10)) }

/-- Decision with action buy, no amount field, and confidence 0.9. -/
def confidentNoAmountDecision : LLMResponse :=
  { action := some (.str "buy"), amount := none,
    reasoning := some (.str "momentum"), confidence := some (.num (9 / 10)) }

/-- Running agent with buyback enabled. -/
def sampleAgentBuyback : AgentState :=
  { isRunning := true, config := some sampleTradingConfig,
    buybackConfig := some sampleBuybackConfig, checkInterval := some 1 }

/-- Running agent without a buyback configuration. -/
def sampleAgentNoBuyback : AgentState :=
  { isRunning := true, config := some sampleTradingConfig,
    buybackConfig := none, checkInterval := some 1 }

/-- Tick environment where every external call succeeds, the snapshot price
is 0.00009, and the collected fee amount is the hardcoded 0. -/
def sampleEnvOk (d : LLMResponse) : TickEnv :=
  { tokenInfoResult := .ok sampleTokenInfo, priceResult := .ok (9 / 100000),
    volumeResult := .ok 3, decisionResult := .ok d, execOutcome := .ok (),
    feeResult := .ok 0, buybackOutcome := .ok () }

/-- Tick environment whose first snapshot read throws. -/
def sampleEnvRpcDown : TickEnv :=
  { tokenInfoResult := .error "rpc down", priceResult := .ok (1 / 10000),
    volumeResult := .ok 3, decisionResult := .error "rpc down",
    execOutcome := .ok (), feeResult := .ok 0, buybackOutcome := .ok () }

/-- Sample marketing configuration. -/
def sampleMarketingConfig : MarketingConfig :=
  { totalBudget := 1000, platforms := ["twitter"], minROI := 2,
    rebalanceInterval := 24 }

/-- Running marketing agent. -/
def sampleMarketingState : MarketingAgentState :=
  { isRunning := true, config := some sampleMarketingConfig,
    monitorInterval := some 2 }

/-- Marketing tick environment whose metrics fetch throws. -/
def sampleMarketingEnvDown : MarketingTickEnv :=
  { metricsResult := .error "fetch failed", decisionResult := .error "fetch failed",
    allocOutcome := fun _ => .ok (), trackOutcome := .ok () }

/-- Sample SDK state with a wallet and a controller program configured. -/
def sampleSdkState : SdkState :=
  { wallet := some "WalletKeypair", controllerProgram := some "ControllerProgramId" }

/-- Tick environment where the dispatched execution call throws. -/
def sampleEnvExecFail : TickEnv :=
  { sampleEnvOk confidentSellDecision with execOutcome := .error "send failed" }

/-- Tick environment where the buyback-path fee collection throws. -/
def sampleEnvFeeFail : TickEnv :=
  { sampleEnvOk confidentSellDecision with feeResult := .error "collect failed" }

/-- Sample allocation entry returned by the marketing LLM. -/
def sampleAllocation : Json :=
  .obj [("platform", .str "twitter"), ("amount", .num 500)]

/-- Sample marketing decision carrying one allocation entry. -/
def sampleMarketingDecision : MarketingDecision :=
  { allocations := [sampleAllocation], reasoning := some (.str "focus twitter") }

/-- Marketing tick environment where every allocation POST throws. -/
def sampleMarketingEnvAllocFail : MarketingTickEnv :=
  { metricsResult := .ok (), decisionResult := .ok sampleMarketingDecision,
    allocOutcome := fun _ => .error "post failed", trackOutcome := .ok () }

/-- Every call `checkBuyback` can issue is the fee collection or the
composite buyback execution; it never issues a dispatch-arm call. -/
theorem checkBuyback_calls_shape (bb : Option BuybackConfig) (cfg : Option TradingConfig)
    (price : ℚ) (fr : Except String ℚ) (bo : Except String Unit) :
    ∀ call ∈ (checkBuyback bb cfg price fr bo).1,
      call = SdkCall.collectFees ∨ ∃ m a p, call = SdkCall.buybackAndBurn m a p := by
  intro call hmem
  rcases bb with _ | bb
  · simp [checkBuyback] at hmem
  rcases cfg with _ | cfg
  · simp [checkBuyback] at hmem
  rcases fr with e | q
  · simp only [checkBuyback] at hmem
    split at hmem
    · simp at hmem
      exact .inl hmem
    · simp at hmem
  · simp only [checkBuyback] at hmem
    split at hmem
    · by_cases hq : q > 0
      · rcases bo with e | u <;> simp [hq] at hmem <;>
          rcases hmem with h | h
        · exact .inl h
        · exact .inr ⟨_, _, _, h⟩
        · exact .inl h
        · exact .inr ⟨_, _, _, h⟩
      · simp [hq] at hmem
        exact .inl hmem
    · simp at hmem

/-- C1: for every reply text whose JSON.parse throws (the text is not valid
JSON), parseTradingResponse returns the record with action hold, confidence
0.5 and the raw text as reasoning; being a total Lean function of a plain
record type, it surfaces no failure to the caller. -/
theorem parser_invalid_json_fallback (response : String) :
    parseTradingResponse none response =
      { action := some (.str "hold"), amount := none,
        reasoning := some (.str response), confidence := some (.num (1 / 2)) } := rfl

/-- C7: for every successfully parsed reply carrying a confidence field,
parseTradingResponse returns that confidence value and the action field
unmodified: no clamping of confidence into the unit interval and no
validation of the action string takes place. -/
theorem parser_preserves_confidence_and_action (j : Json) (response : String) (c : Json)
    (hc : j.getField "confidence" = some c) :
    (parseTradingResponse (some j) response).confidence = some c ∧
    (parseTradingResponse (some j) response).action = j.getField "action" := by
  cases j with
  | null => simp [Json.getField] at hc
  | bool b => simp [Json.getField] at hc
  | num q => simp [Json.getField] at hc
  | str s => simp [Json.getField] at hc
  | arr elems => simp [Json.getField] at hc
  | obj fields =>
    exact ⟨by simp [parseTradingResponse, Json.isNull, hc],
      by simp [parseTradingResponse, Json.isNull]⟩

/-- Witness for C7: a parsed object with confidence 5 (outside the unit
interval) and an action outside the allowed set comes back verbatim. -/
theorem parser_preserves_confidence_and_action_witness :
    (parseTradingResponse
        (some (.obj [("action", .str "yolo"), ("confidence", .num 5)])) "").confidence
      = some (.num 5) ∧
    (parseTradingResponse
        (some (.obj [("action", .str "yolo"), ("confidence", .num 5)])) "").action
      = (Json.obj [("action", .str "yolo"), ("confidence", .num 5)]).getField "action" :=
  parser_preserves_confidence_and_action _ "" _ rfl

/-- C2: for every provider value outside the five recognized tags, querying
the connector fails with the Unsupported provider error and produces no
HTTP request (construction itself stores the configuration unvalidated and
never fails, so the failure surfaces at query time). -/
theorem unsupported_provider_no_request (cfg : LLMConfig) (name : String)
    (hp : cfg.provider = .other name) :
    queryLLM cfg = .error ("Unsupported provider: " ++ name) ∧
    ∀ r : HttpRequest, queryLLM cfg ≠ .ok r := by
  have he : queryLLM cfg = .error ("Unsupported provider: " ++ name) := by
    simp [queryLLM, hp, Provider.displayName]
  refine ⟨he, ?_⟩
  intro r h
  rw [he] at h
  exact Except.noConfusion h

/-- Witness for C2: a connector configured with provider tag grok is
rejected at query time. -/
theorem unsupported_provider_no_request_witness :
    queryLLM
        { provider := .other "grok", apiKey := none, model := none,
          baseUrl := none, systemPrompt := none }
      = .error ("Unsupported provider: " ++ "grok") :=
  (unsupported_provider_no_request _ "grok" rfl).1

/-- C3: starting an already running agent always throws Agent already
running (the error is raised before any field assignment or timer
creation, so no second timer exists); starting an idle agent is the only
transition into the running state and installs one timer, and stopTrading
is the only transition back, clearing the timer handle. -/
theorem start_twice_rejected (s : AgentState) (c : TradingConfig) (t : Nat) :
    (s.isRunning = true → startTrading s c t = .error "Agent already running") ∧
    (s.isRunning = false →
      startTrading s c t
        = .ok { isRunning := true, config := some c,
                buybackConfig := s.buybackConfig, checkInterval := some t }) ∧
    (stopTrading s).isRunning = false ∧ (stopTrading s).checkInterval = none := by
  refine ⟨?_, ?_, rfl, rfl⟩
  · intro h
    simp [startTrading, h]
  · intro h
    simp [startTrading, h]

/-- Witness for C3: a concrete running agent rejects a second start. -/
theorem start_twice_rejected_witness :
    startTrading sampleAgentBuyback sampleTradingConfig 2
      = .error "Agent already running" :=
  (start_twice_rejected sampleAgentBuyback sampleTradingConfig 2).1 rfl

/-- C4: on every tick whose parsed decision has a numeric confidence not
strictly above 0.7, no dispatch-arm execution call (a buy or sell trade or
the add-liquidity call; the burn arm never calls the SDK) is issued,
whatever the decision action is; any calls the tick makes come from the
independent buyback path. -/
theorem low_confidence_skips_dispatch (s : AgentState) (env : TickEnv)
    (d : LLMResponse) (q : ℚ)
    (hd : env.decisionResult = .ok d)
    (hq : d.confidence = some (.num q)) (hle : q ≤ 7 / 10) :
    ∀ call ∈ (driverTick s env).2.calls, call.isDispatchCall = false := by
  intro call hmem
  have hgate : jsGtNum d.confidence (7 / 10) = false := by
    rw [hq]
    exact decide_eq_false (not_lt.mpr hle)
  rcases hc : s.config with _ | cfg
  · simp [driverTick, analyzeAndTrade, hc] at hmem
  rcases hti : env.tokenInfoResult with e | tokenInfo
  · simp [driverTick, analyzeAndTrade, hc, hti] at hmem
  rcases hpr : env.priceResult with e | price
  · simp [driverTick, analyzeAndTrade, hc, hti, hpr] at hmem
  rcases hv : env.volumeResult with e | vol
  · simp [driverTick, analyzeAndTrade, hc, hti, hpr, hv] at hmem
  rcases hbb : s.buybackConfig with _ | bb
  · simp [driverTick, analyzeAndTrade, hc, hti, hpr, hv, hd, hgate, hbb] at hmem
  by_cases hen : bb.enabled
  · simp [driverTick, analyzeAndTrade, hc, hti, hpr, hv, hd, hgate, hbb, hen] at hmem
    rcases checkBuyback_calls_shape _ _ _ _ _ call hmem with h | ⟨m, a, p, h⟩ <;>
      subst h <;> simp [SdkCall.isDispatchCall]
  · simp [driverTick, analyzeAndTrade, hc, hti, hpr, hv, hd, hgate, hbb, hen] at hmem

/-- Witness for C4: a tick with a buy decision at confidence 0.65 issues
only the buyback-path fee collection, which is not a dispatch call. -/
theorem low_confidence_skips_dispatch_witness :
    SdkCall.isDispatchCall SdkCall.collectFees = false := by
  apply low_confidence_skips_dispatch sampleAgentBuyback
    (sampleEnvOk lowConfidenceDecision) lowConfidenceDecision (13 / 20) rfl rfl
    (by norm_num)
  norm_num [driverTick, analyzeAndTrade, checkBuyback, sampleAgentBuyback,
    sampleEnvOk, lowConfidenceDecision, sampleBuybackConfig, sampleTradingConfig,
    getMarketData, jsGtNum, ite_self]

/-- C5: on every tick with an enabled buyback configuration whose trigger
price is set to a nonzero value and a snapshot price strictly below it,
the tick initiates fee collection, for every decision the LLM returned on
that same tick. -/
theorem buyback_trigger_collects_fees (s : AgentState) (env : TickEnv)
    (cfg : TradingConfig) (bb : BuybackConfig) (tokenInfo : TokenInfo)
    (price vol t : ℚ) (d : LLMResponse)
    (hcfg : s.config = some cfg) (hbb : s.buybackConfig = some bb)
    (hen : bb.enabled = true) (ht : bb.triggerPrice = some t) (ht0 : t ≠ 0)
    (hti : env.tokenInfoResult = .ok tokenInfo) (hpr : env.priceResult = .ok price)
    (hv : env.volumeResult = .ok vol) (hlt : price < t)
    (hd : env.decisionResult = .ok d) (hexec : env.execOutcome = .ok ()) :
    SdkCall.collectFees ∈ (driverTick s env).2.calls := by
  have h1 : decide (t ≠ 0) = true := decide_eq_true ht0
  have h2 : decide (price < t) = true := decide_eq_true hlt
  rcases hfr : env.feeResult with e | q
  · simp [driverTick, analyzeAndTrade, checkBuyback, getMarketData, hcfg, hti, hpr, hv,
      hd, hbb, hen, hexec, ht, h1, h2, hfr, ite_self]
  · rcases hbo : env.buybackOutcome with e | u <;> by_cases hq : q > 0 <;>
      simp [driverTick, analyzeAndTrade, checkBuyback, getMarketData, hcfg, hti, hpr, hv,
        hd, hbb, hen, hexec, ht, h1, h2, hfr, hbo, hq, ite_self]

/-- Witness for C5: trigger price 0.0001, snapshot price 0.00009, and a
sell decision at confidence 0.9: the tick still collects fees. -/
theorem buyback_trigger_collects_fees_witness :
    SdkCall.collectFees
      ∈ (driverTick sampleAgentBuyback (sampleEnvOk confidentSellDecision)).2.calls :=
  buyback_trigger_collects_fees sampleAgentBuyback (sampleEnvOk confidentSellDecision)
    sampleTradingConfig sampleBuybackConfig sampleTokenInfo
    (9 / 100000) 3 (1 / 10000) confidentSellDecision
    rfl rfl rfl rfl (by norm_num) rfl rfl rfl (by norm_num) rfl rfl

/-- C6: with a wallet and controller program configured and a successful
transaction send, buybackAndBurn submits exactly one buy trade for the
full SOL amount, at most logs the burn intention (no burn instruction is
ever issued), and returns the buy trade signature. -/
theorem buyback_burn_single_trade (s : SdkState) (p : BuybackParams) (sig w c : String)
    (hw : s.wallet = some w) (hc : s.controllerProgram = some c) :
    MayhemSDK.buybackAndBurn s p (.ok sig)
      = .ok (sig, ChainEvent.tradeSubmitted p.tokenMint p.solAmount "buy" none ::
          (if p.burnPercentage > 0 then [ChainEvent.burnIntentLogged p.burnPercentage]
           else [])) ∧
    ChainEvent.burnInstructionIssued ∉
      (ChainEvent.tradeSubmitted p.tokenMint p.solAmount "buy" none ::
        (if p.burnPercentage > 0 then [ChainEvent.burnIntentLogged p.burnPercentage]
         else [])) ∧
    (ChainEvent.tradeSubmitted p.tokenMint p.solAmount "buy" none ::
        (if p.burnPercentage > 0 then [ChainEvent.burnIntentLogged p.burnPercentage]
         else [])).countP ChainEvent.isTradeSubmitted = 1 := by
  refine ⟨?_, ?_, ?_⟩ <;> by_cases hb : p.burnPercentage > 0 <;>
    simp [MayhemSDK.buybackAndBurn, MayhemSDK.trade, hw, hc, hb,
      ChainEvent.isTradeSubmitted, List.countP_cons, List.countP_nil]

/-- Witness for C6: a concrete buyback of 5 SOL at 50 percent burn yields
one buy trade and a logged burn intention only. -/
theorem buyback_burn_single_trade_witness :
    MayhemSDK.buybackAndBurn sampleSdkState
        { tokenMint := "TokenMintAddress", solAmount := 5, burnPercentage := 50 }
        (.ok "SIG")
      = .ok ("SIG", ChainEvent.tradeSubmitted "TokenMintAddress" 5 "buy" none ::
          (if (50 : ℚ) > 0 then [ChainEvent.burnIntentLogged 50] else [])) :=
  (buyback_burn_single_trade sampleSdkState
    { tokenMint := "TokenMintAddress", solAmount := 5, burnPercentage := 50 }
    "SIG" "WalletKeypair" "ControllerProgramId" rfl rfl).1

/-- C8: for both loop drivers, a tick is a total function into an outcome
record, so no per-step failure is ever re-thrown, and the agent state
including the interval handle is unchanged by every tick, so the timer
keeps scheduling subsequent ticks. A failure of each step category ends
the tick early with the error only recorded: snapshot reads, the LLM
query, the dispatched execution call, the buyback-path fee collection and
buyback execution, the marketing metrics fetch, the marketing LLM query,
each per-allocation POST (the first failing POST stops the loop), and the
tracking POST. -/
theorem tick_failures_contained (s : AgentState) (env : TickEnv)
    (ms : MarketingAgentState) (menv : MarketingTickEnv) :
    (driverTick s env).1 = s ∧
    (marketingDriverTick ms menv).1 = ms ∧
    (∀ cfg e, s.config = some cfg → env.tokenInfoResult = .error e →
      (driverTick s env).2 = { calls := [], caughtError := some e }) ∧
    (∀ cfg tokenInfo price vol e, s.config = some cfg →
      env.tokenInfoResult = .ok tokenInfo → env.priceResult = .ok price →
      env.volumeResult = .ok vol → env.decisionResult = .error e →
      (driverTick s env).2 = { calls := [], caughtError := some e }) ∧
    (∀ cfg tokenInfo price vol d e, s.config = some cfg →
      env.tokenInfoResult = .ok tokenInfo → env.priceResult = .ok price →
      env.volumeResult = .ok vol → env.decisionResult = .ok d →
      jsGtNum d.confidence (7 / 10) = true →
      (executeDecision (some cfg) d).isEmpty = false →
      env.execOutcome = .error e →
      (driverTick s env).2
        = { calls := executeDecision (some cfg) d, caughtError := some e }) ∧
    (∀ cfg bb tokenInfo price vol d t e, s.config = some cfg →
      s.buybackConfig = some bb → bb.enabled = true →
      bb.triggerPrice = some t → t ≠ 0 → price < t →
      env.tokenInfoResult = .ok tokenInfo → env.priceResult = .ok price →
      env.volumeResult = .ok vol → env.decisionResult = .ok d →
      env.execOutcome = .ok () → env.feeResult = .error e →
      (driverTick s env).2
        = { calls := (if jsGtNum d.confidence (7 / 10) then
              executeDecision (some cfg) d else []) ++ [SdkCall.collectFees],
            caughtError := some e }) ∧
    (∀ cfg bb tokenInfo price vol d t q e, s.config = some cfg →
      s.buybackConfig = some bb → bb.enabled = true →
      bb.triggerPrice = some t → t ≠ 0 → price < t →
      env.tokenInfoResult = .ok tokenInfo → env.priceResult = .ok price →
      env.volumeResult = .ok vol → env.decisionResult = .ok d →
      env.execOutcome = .ok () → env.feeResult = .ok q → q > 0 →
      env.buybackOutcome = .error e →
      (driverTick s env).2
        = { calls := (if jsGtNum d.confidence (7 / 10) then
              executeDecision (some cfg) d else [])
            ++ [SdkCall.collectFees,
                SdkCall.buybackAndBurn cfg.tokenMint q bb.burnPercentage],
            caughtError := some e }) ∧
    (∀ mcfg e, ms.config = some mcfg → menv.metricsResult = .error e →
      (marketingDriverTick ms menv).2 = { calls := [], caughtError := some e }) ∧
    (∀ mcfg e, ms.config = some mcfg → menv.metricsResult = .ok () →
      menv.decisionResult = .error e →
      (marketingDriverTick ms menv).2 = { calls := [], caughtError := some e }) ∧
    (∀ a rest e, menv.allocOutcome a = .error e →
      runAllocations menv.allocOutcome (a :: rest)
        = ([MarketingCall.allocatePost a], some e)) ∧
    (∀ mcfg md calls e, ms.config = some mcfg → menv.metricsResult = .ok () →
      menv.decisionResult = .ok md →
      runAllocations menv.allocOutcome md.allocations = (calls, some e) →
      (marketingDriverTick ms menv).2 = { calls := calls, caughtError := some e }) ∧
    (∀ mcfg md calls e, ms.config = some mcfg → menv.metricsResult = .ok () →
      menv.decisionResult = .ok md →
      runAllocations menv.allocOutcome md.allocations = (calls, none) →
      menv.trackOutcome = .error e →
      (marketingDriverTick ms menv).2 = { calls := calls, caughtError := some e }) := by
  refine ⟨rfl, rfl, ?_, ?_, ?_, ?_, ?_, ?_, ?_, ?_, ?_, ?_⟩
  · intro cfg e hc he
    simp [driverTick, analyzeAndTrade, hc, he]
  · intro cfg tokenInfo price vol e hc h1 h2 h3 h4
    simp [driverTick, analyzeAndTrade, hc, h1, h2, h3, h4]
  · intro cfg tokenInfo price vol d e hc h1 h2 h3 h4 hg hne hee
    simp [driverTick, analyzeAndTrade, hc, h1, h2, h3, h4, hg, hne, hee]
  · intro cfg bb tokenInfo price vol d t e hc hbb hen ht ht0 hlt h1 h2 h3 h4 hexec hfee
    have d1 : decide (t ≠ 0) = true := decide_eq_true ht0
    have d2 : decide (price < t) = true := decide_eq_true hlt
    simp [driverTick, analyzeAndTrade, checkBuyback, getMarketData, hc, hbb, hen, ht,
      h1, h2, h3, h4, hexec, hfee, d1, d2, ite_self]
  · intro cfg bb tokenInfo price vol d t q e hc hbb hen ht ht0 hlt h1 h2 h3 h4 hexec
      hfee hq hbo
    have d1 : decide (t ≠ 0) = true := decide_eq_true ht0
    have d2 : decide (price < t) = true := decide_eq_true hlt
    simp [driverTick, analyzeAndTrade, checkBuyback, getMarketData, hc, hbb, hen, ht,
      h1, h2, h3, h4, hexec, hfee, hq, hbo, d1, d2, ite_self]
  · intro mcfg e hc he
    simp [marketingDriverTick, analyzeAndAllocate, hc, he]
  · intro mcfg e hc hm hd
    simp [marketingDriverTick, analyzeAndAllocate, hc, hm, hd]
  · intro a rest e ha
    simp [runAllocations, ha]
  · intro mcfg md calls e hc hm hd hrun
    simp [marketingDriverTick, analyzeAndAllocate, hc, hm, hd, hrun]
  · intro mcfg md calls e hc hm hd hrun htr
    simp [marketingDriverTick, analyzeAndAllocate, hc, hm, hd, hrun, htr]

/-- Witness for C8: concrete ticks whose snapshot read, execution call,
fee collection, metrics fetch, or allocation POST throws all leave the
agent unchanged, stop the tick at the failing step, and only record the
error. -/
theorem tick_failures_contained_witness :
    (driverTick sampleAgentBuyback sampleEnvRpcDown).1 = sampleAgentBuyback ∧
    (driverTick sampleAgentBuyback sampleEnvRpcDown).2
      = { calls := [], caughtError := some "rpc down" } ∧
    (driverTick sampleAgentBuyback sampleEnvExecFail).2
      = { calls := executeDecision (some sampleTradingConfig) confidentSellDecision,
          caughtError := some "send failed" } ∧
    (driverTick sampleAgentBuyback sampleEnvFeeFail).2
      = { calls := (if jsGtNum confidentSellDecision.confidence (7 / 10) then
            executeDecision (some sampleTradingConfig) confidentSellDecision else [])
          ++ [SdkCall.collectFees],
          caughtError := some "collect failed" } ∧
    (marketingDriverTick sampleMarketingState sampleMarketingEnvDown).2
      = { calls := [], caughtError := some "fetch failed" } ∧
    (marketingDriverTick sampleMarketingState sampleMarketingEnvAllocFail).2
      = { calls := [MarketingCall.allocatePost sampleAllocation],
          caughtError := some "post failed" } := by
  refine ⟨(tick_failures_contained sampleAgentBuyback sampleEnvRpcDown
      sampleMarketingState sampleMarketingEnvDown).1, ?_, ?_, ?_, ?_, ?_⟩
  · exact (tick_failures_contained sampleAgentBuyback sampleEnvRpcDown
      sampleMarketingState sampleMarketingEnvDown).2.2.1 sampleTradingConfig
      "rpc down" rfl rfl
  · exact (tick_failures_contained sampleAgentBuyback sampleEnvExecFail
      sampleMarketingState sampleMarketingEnvDown).2.2.2.2.1 sampleTradingConfig
      sampleTokenInfo (9 / 100000) 3 confidentSellDecision "send failed"
      rfl rfl rfl rfl rfl (by norm_num [jsGtNum, confidentSellDecision]) rfl rfl
  · exact (tick_failures_contained sampleAgentBuyback sampleEnvFeeFail
      sampleMarketingState sampleMarketingEnvDown).2.2.2.2.2.1 sampleTradingConfig
      sampleBuybackConfig sampleTokenInfo (9 / 100000) 3 confidentSellDecision
      (1 / 10000) "collect failed" rfl rfl rfl rfl (by norm_num) (by norm_num)
      rfl rfl rfl rfl rfl rfl
  · exact (tick_failures_contained sampleAgentBuyback sampleEnvRpcDown
      sampleMarketingState sampleMarketingEnvDown).2.2.2.2.2.2.2.1
      sampleMarketingConfig "fetch failed" rfl rfl
  · exact (tick_failures_contained sampleAgentBuyback sampleEnvRpcDown
      sampleMarketingState sampleMarketingEnvAllocFail).2.2.2.2.2.2.2.2.2.2.1
      sampleMarketingConfig sampleMarketingDecision
      [MarketingCall.allocatePost sampleAllocation] "post failed" rfl rfl rfl rfl

/-- C9: collectFees returns exactly 0 whenever it completes without error,
and consequently the buyback path of checkBuyback, fed by collectFees,
never reaches the buybackAndBurn call, for every configuration and every
snapshot price. -/
theorem collect_fees_always_zero :
    (∀ (s : SdkState) (send : Except String String) (q : ℚ),
      MayhemSDK.collectFees s send = .ok q → q = 0) ∧
    (∀ (bb : Option BuybackConfig) (cfg : Option TradingConfig) (price : ℚ)
        (s : SdkState) (send : Except String String) (bo : Except String Unit),
      ∀ call ∈ (checkBuyback bb cfg price (MayhemSDK.collectFees s send) bo).1,
        call.isBuybackAndBurn = false) := by
  have hz : ∀ (s : SdkState) (send : Except String String) (q : ℚ),
      MayhemSDK.collectFees s send = .ok q → q = 0 := by
    intro s send q h
    rcases hcp : s.controllerProgram with _ | cp
    · simp [MayhemSDK.collectFees, hcp] at h
    · rcases send with e | sg
      · simp [MayhemSDK.collectFees, hcp] at h
      · simp [MayhemSDK.collectFees, hcp] at h
        exact h.symm
  refine ⟨hz, ?_⟩
  intro bb cfg price s send bo call hmem
  rcases bb with _ | bb
  · simp [checkBuyback] at hmem
  rcases cfg with _ | cfg
  · simp [checkBuyback] at hmem
  have hfee : (∃ e, MayhemSDK.collectFees s send = .error e) ∨
      MayhemSDK.collectFees s send = .ok 0 := by
    rcases hcp : s.controllerProgram with _ | cp
    · exact .inl ⟨"Controller program not configured", by simp [MayhemSDK.collectFees, hcp]⟩
    · rcases send with e | sg
      · exact .inl ⟨e, by simp [MayhemSDK.collectFees, hcp]⟩
      · exact .inr (by simp [MayhemSDK.collectFees, hcp])
  rcases htp : bb.triggerPrice with _ | t
  · rcases hfee with ⟨e, he⟩ | he <;> rw [he] at hmem <;>
      simp [checkBuyback, htp] at hmem
  · rcases hfee with ⟨e, he⟩ | he <;> rw [he] at hmem <;>
      simp only [checkBuyback, htp] at hmem <;> split at hmem <;>
      simp at hmem <;> subst hmem <;> rfl

/-- Witness for C9: with the controller configured and the send
succeeding, the collected amount is 0, and a triggered buyback check only
collects fees. -/
theorem collect_fees_always_zero_witness :
    (0 : ℚ) = 0 ∧ SdkCall.isBuybackAndBurn SdkCall.collectFees = false := by
  constructor
  · exact collect_fees_always_zero.1 sampleSdkState (.ok "SIG") 0 rfl
  · apply collect_fees_always_zero.2 (some sampleBuybackConfig)
      (some sampleTradingConfig) (9 / 100000) sampleSdkState (.ok "SIG") (.ok ())
    norm_num [checkBuyback, MayhemSDK.collectFees, sampleBuybackConfig,
      sampleTradingConfig, sampleSdkState]

/-- C10: a decision whose action is buy, sell, burn or add_lp but whose
amount field is absent makes executeDecision perform no SDK call and
report no error; a full tick on such a decision (at any confidence,
including above 0.7) with no buyback configured issues no call and
records no error. -/
theorem missing_amount_no_call (cfg : Option TradingConfig) (d : LLMResponse)
    (ha : d.action = some (.str "buy") ∨ d.action = some (.str "sell") ∨
      d.action = some (.str "burn") ∨ d.action = some (.str "add_lp"))
    (hamt : d.amount = none) :
    executeDecision cfg d = [] ∧
    ∀ (s : AgentState) (env : TickEnv) (c : TradingConfig) (tokenInfo : TokenInfo)
      (price vol : ℚ),
      s.config = some c → s.buybackConfig = none →
      env.tokenInfoResult = .ok tokenInfo → env.priceResult = .ok price →
      env.volumeResult = .ok vol → env.decisionResult = .ok d →
      (driverTick s env).2 = { calls := [], caughtError := none } := by
  have eT : jsTruthy none = false := rfl
  have key : ∀ oc : Option TradingConfig, executeDecision oc d = [] := by
    intro oc
    rcases oc with _ | c
    · rfl
    · rcases ha with h | h | h | h
      · have e1 : jsStrEq d.action "buy" = true := by rw [h]; rfl
        simp [executeDecision, e1, hamt, eT]
      · have e1 : jsStrEq d.action "buy" = false := by rw [h]; rfl
        have e2 : jsStrEq d.action "sell" = true := by rw [h]; rfl
        simp [executeDecision, e1, e2, hamt, eT]
      · have e1 : jsStrEq d.action "buy" = false := by rw [h]; rfl
        have e2 : jsStrEq d.action "sell" = false := by rw [h]; rfl
        have e3 : jsStrEq d.action "burn" = true := by rw [h]; rfl
        simp [executeDecision, e1, e2, e3]
      · have e1 : jsStrEq d.action "buy" = false := by rw [h]; rfl
        have e2 : jsStrEq d.action "sell" = false := by rw [h]; rfl
        have e3 : jsStrEq d.action "burn" = false := by rw [h]; rfl
        have e4 : jsStrEq d.action "add_lp" = true := by rw [h]; rfl
        simp [executeDecision, e1, e2, e3, e4, hamt, eT]
  refine ⟨key cfg, ?_⟩
  intro s env c tokenInfo price vol hc hb hti hpr hv hd
  simp [driverTick, analyzeAndTrade, hc, hti, hpr, hv, hd, hb, key, ite_self]

/-- Witness for C10: a buy decision at confidence 0.9 with no amount makes
the dispatch issue nothing and the whole tick records no call and no
error. -/
theorem missing_amount_no_call_witness :
    executeDecision (some sampleTradingConfig) confidentNoAmountDecision = [] ∧
    (driverTick sampleAgentNoBuyback (sampleEnvOk confidentNoAmountDecision)).2
      = { calls := [], caughtError := none } :=
  ⟨(missing_amount_no_call (some sampleTradingConfig) confidentNoAmountDecision
      (Or.inl rfl) rfl).1,
   (missing_amount_no_call (some sampleTradingConfig) confidentNoAmountDecision
      (Or.inl rfl) rfl).2 sampleAgentNoBuyback (sampleEnvOk confidentNoAmountDecision)
      sampleTradingConfig sampleTokenInfo (9 / 100000) 3 rfl rfl rfl rfl rfl rfl⟩

end MayhemLLM
